import Mathlib

/-!
Verification development for the box2c joint subsystem sources under review:
`include/box2d/joint_types.h` (the seven joint definition structs and their
documentation) and `samples/car.cpp` (the Car sample driving the wheel-joint
API).  C floats are embedded as exact rationals (ℚ); ids (`b2BodyId`,
`b2JointId`, `b2WorldId`) are embedded as natural numbers with 0 as the null
id (a zero-initialized id `{}` is null); `void*` user data is embedded as a
natural number address with 0 for null.
-/

/-- Two-dimensional vector, embedding `b2Vec2` with exact rational coordinates. -/
structure b2Vec2 where
  x : ℚ
  y : ℚ
deriving DecidableEq

/-- Embedding of `b2Add` from the math headers: componentwise vector sum. -/
def b2Add (a b : b2Vec2) : b2Vec2 := ⟨a.x + b.x, a.y + b.y⟩

/-- Embedding of `b2Sub`: componentwise vector difference. -/
def b2Sub (a b : b2Vec2) : b2Vec2 := ⟨a.x - b.x, a.y - b.y⟩

/-- Joint type enumeration, embedding `b2JointType` from joint_types.h. -/
inductive b2JointType where
  | b2_distanceJoint
  | b2_motorJoint
  | b2_mouseJoint
  | b2_prismaticJoint
  | b2_revoluteJoint
  | b2_weldJoint
  | b2_wheelJoint
deriving DecidableEq

/-- Embedding of `b2DistanceJointDef` (joint_types.h lines 31-82), fields in
source order. -/
structure b2DistanceJointDef where
  bodyIdA : Nat
  bodyIdB : Nat
  localAnchorA : b2Vec2
  localAnchorB : b2Vec2
  length : ℚ
  enableSpring : Bool
  hertz : ℚ
  dampingRatio : ℚ
  enableLimit : Bool
  minLength : ℚ
  maxLength : ℚ
  enableMotor : Bool
  maxMotorForce : ℚ
  motorSpeed : ℚ
  collideConnected : Bool
  userData : Nat
deriving DecidableEq

/-- Embedding of `b2MotorJointDef` (joint_types.h lines 92-121), fields in
source order. -/
structure b2MotorJointDef where
  bodyIdA : Nat
  bodyIdB : Nat
  linearOffset : b2Vec2
  angularOffset : ℚ
  maxForce : ℚ
  maxTorque : ℚ
  correctionFactor : ℚ
  collideConnected : Bool
  userData : Nat
deriving DecidableEq

/-- Embedding of `b2MouseJointDef` (joint_types.h lines 132-158), fields in
source order.  The `target` point is in world space per its doc comment. -/
structure b2MouseJointDef where
  bodyIdA : Nat
  bodyIdB : Nat
  target : b2Vec2
  hertz : ℚ
  dampingRatio : ℚ
  maxForce : ℚ
  collideConnected : Bool
  userData : Nat
deriving DecidableEq

/-- Embedding of `b2PrismaticJointDef` (joint_types.h lines 171-223), fields
in source order. -/
structure b2PrismaticJointDef where
  bodyIdA : Nat
  bodyIdB : Nat
  localAnchorA : b2Vec2
  localAnchorB : b2Vec2
  localAxisA : b2Vec2
  referenceAngle : ℚ
  enableSpring : Bool
  hertz : ℚ
  dampingRatio : ℚ
  enableLimit : Bool
  lowerTranslation : ℚ
  upperTranslation : ℚ
  enableMotor : Bool
  maxMotorForce : ℚ
  motorSpeed : ℚ
  collideConnected : Bool
  userData : Nat
deriving DecidableEq

/-- Embedding of `b2RevoluteJointDef` (joint_types.h lines 241-294), fields
in source order. -/
structure b2RevoluteJointDef where
  bodyIdA : Nat
  bodyIdB : Nat
  localAnchorA : b2Vec2
  localAnchorB : b2Vec2
  referenceAngle : ℚ
  enableSpring : Bool
  hertz : ℚ
  dampingRatio : ℚ
  enableLimit : Bool
  lowerAngle : ℚ
  upperAngle : ℚ
  enableMotor : Bool
  maxMotorTorque : ℚ
  motorSpeed : ℚ
  drawSize : ℚ
  collideConnected : Bool
  userData : Nat
deriving DecidableEq

/-- Embedding of `b2WeldJointDef` (joint_types.h lines 306-340), fields in
source order. -/
structure b2WeldJointDef where
  bodyIdA : Nat
  bodyIdB : Nat
  localAnchorA : b2Vec2
  localAnchorB : b2Vec2
  referenceAngle : ℚ
  linearHertz : ℚ
  angularHertz : ℚ
  linearDampingRatio : ℚ
  angularDampingRatio : ℚ
  collideConnected : Bool
  userData : Nat
deriving DecidableEq

/-- Embedding of `b2WheelJointDef` (joint_types.h lines 353-402), fields in
source order. -/
structure b2WheelJointDef where
  bodyIdA : Nat
  bodyIdB : Nat
  localAnchorA : b2Vec2
  localAnchorB : b2Vec2
  localAxisA : b2Vec2
  enableSpring : Bool
  hertz : ℚ
  dampingRatio : ℚ
  enableLimit : Bool
  lowerTranslation : ℚ
  upperTranslation : ℚ
  enableMotor : Bool
  maxMotorTorque : ℚ
  motorSpeed : ℚ
  collideConnected : Bool
  userData : Nat
deriving DecidableEq

/-- The field names of each joint definition variant, transcribed in source
order from the corresponding struct in joint_types.h. -/
def jointDefFields : b2JointType → List String
  | .b2_distanceJoint =>
      ["bodyIdA", "bodyIdB", "localAnchorA", "localAnchorB", "length",
       "enableSpring", "hertz", "dampingRatio", "enableLimit", "minLength",
       "maxLength", "enableMotor", "maxMotorForce", "motorSpeed",
       "collideConnected", "userData"]
  | .b2_motorJoint =>
      ["bodyIdA", "bodyIdB", "linearOffset", "angularOffset", "maxForce",
       "maxTorque", "correctionFactor", "collideConnected", "userData"]
  | .b2_mouseJoint =>
      ["bodyIdA", "bodyIdB", "target", "hertz", "dampingRatio", "maxForce",
       "collideConnected", "userData"]
  | .b2_prismaticJoint =>
      ["bodyIdA", "bodyIdB", "localAnchorA", "localAnchorB", "localAxisA",
       "referenceAngle", "enableSpring", "hertz", "dampingRatio",
       "enableLimit", "lowerTranslation", "upperTranslation", "enableMotor",
       "maxMotorForce", "motorSpeed", "collideConnected", "userData"]
  | .b2_revoluteJoint =>
      ["bodyIdA", "bodyIdB", "localAnchorA", "localAnchorB",
       "referenceAngle", "enableSpring", "hertz", "dampingRatio",
       "enableLimit", "lowerAngle", "upperAngle", "enableMotor",
       "maxMotorTorque", "motorSpeed", "drawSize", "collideConnected",
       "userData"]
  | .b2_weldJoint =>
      ["bodyIdA", "bodyIdB", "localAnchorA", "localAnchorB",
       "referenceAngle", "linearHertz", "angularHertz", "linearDampingRatio",
       "angularDampingRatio", "collideConnected", "userData"]
  | .b2_wheelJoint =>
      ["bodyIdA", "bodyIdB", "localAnchorA", "localAnchorB", "localAxisA",
       "enableSpring", "hertz", "dampingRatio", "enableLimit",
       "lowerTranslation", "upperTranslation", "enableMotor",
       "maxMotorTorque", "motorSpeed", "collideConnected", "userData"]

/-- Unit annotations of the motor-related fields, transcribed from the doc
comments of joint_types.h (field name paired with the unit its doc comment
states). -/
def jointMotorFieldUnits : b2JointType → List (String × String)
  | .b2_distanceJoint =>
      [("maxMotorForce", "newtons"), ("motorSpeed", "meters per second")]
  | .b2_motorJoint =>
      [("maxForce", "newtons"), ("maxTorque", "newton-meters")]
  | .b2_mouseJoint => [("maxForce", "newtons")]
  | .b2_prismaticJoint =>
      [("maxMotorForce", "newtons"), ("motorSpeed", "meters per second")]
  | .b2_revoluteJoint =>
      [("maxMotorTorque", "newton-meters"), ("motorSpeed", "radians per second")]
  | .b2_weldJoint => []
  | .b2_wheelJoint =>
      [("maxMotorTorque", "newton-meters"), ("motorSpeed", "radians per second")]

/-- A joint definition variant carries the two body references, the
collision flag and the user-data reference. -/
def hasCommonRefFields (fs : List String) : Bool :=
  ("bodyIdA" ∈ fs) && ("bodyIdB" ∈ fs) && ("collideConnected" ∈ fs)
    && ("userData" ∈ fs)

/-- A joint definition variant carries local anchor points expressed in each
body's local frame. -/
def hasLocalAnchorFields (fs : List String) : Bool :=
  ("localAnchorA" ∈ fs) && ("localAnchorB" ∈ fs)

/-- Spec-side expectation for the amended claim C1: which variants carry the
local anchor pair (all but the Motor and Mouse variants). -/
def anchorFieldsExpected : b2JointType → Bool
  | .b2_motorJoint => false
  | .b2_mouseJoint => false
  | _ => true

/-!
Embedding of the world operations used by samples/car.cpp.  Body shapes and
hull geometry are out of the modelled scope (the spec treats shape/hull
geometry construction as an external collaborator), so the world records
body positions, the wheel-joint definitions passed to `b2CreateWheelJoint`,
and a fresh-id counter.  The sample never sets a body rotation, so bodies
carry the identity rotation and the local/world transforms reduce to
translation by the body position.
-/

/-- World state visible to the Car sample: a fresh-id counter, the created
bodies with their positions, and the wheel-joint definitions registered so
far (in creation order). -/
structure World where
  nextId : Nat
  bodies : List (Nat × b2Vec2)
  wheelJoints : List b2WheelJointDef
deriving DecidableEq

/-- Embedding of `b2CreateBody` as used in car.cpp: returns a fresh body id
and records the body definition's position. -/
def b2CreateBody (w : World) (position : b2Vec2) : Nat × World :=
  (w.nextId,
   { nextId := w.nextId + 1,
     bodies := (w.nextId, position) :: w.bodies,
     wheelJoints := w.wheelJoints })

/-- Embedding of `b2Body_GetPosition`: the recorded position of the body. -/
def b2Body_GetPosition (w : World) (bodyId : Nat) : b2Vec2 :=
  (List.lookup bodyId w.bodies).getD ⟨0, 0⟩

/-- Embedding of `b2Body_GetLocalPoint`: the world point expressed in the
body's frame.  Bodies created by the sample carry the identity rotation, so
this is the difference from the body position. -/
def b2Body_GetLocalPoint (w : World) (bodyId : Nat) (p : b2Vec2) : b2Vec2 :=
  b2Sub p (b2Body_GetPosition w bodyId)

/-- Embedding of `b2Body_GetLocalVector`: a world vector in the body's
frame; the identity rotation leaves the vector unchanged. -/
def b2Body_GetLocalVector (w : World) (bodyId : Nat) (v : b2Vec2) : b2Vec2 :=
  v

/-- Embedding of `b2CreateWheelJoint`: returns a fresh joint id and records
the definition in creation order. -/
def b2CreateWheelJoint (w : World) (d : b2WheelJointDef) : Nat × World :=
  (w.nextId,
   { nextId := w.nextId + 1,
     bodies := w.bodies,
     wheelJoints := w.wheelJoints ++ [d] })

/-- Modelled from the spec: `b2DefaultWheelJointDef` is declared in
joint_types.h but its implementation is not under src/.  Spec section 4.3
says creation applies the type's default-construction rule to unspecified
fields; the Car sample overwrites every field this development reasons
about, so the remaining fields take neutral zero/false defaults here. -/
def b2DefaultWheelJointDef : b2WheelJointDef :=
  { bodyIdA := 0, bodyIdB := 0, localAnchorA := ⟨0, 0⟩,
    localAnchorB := ⟨0, 0⟩, localAxisA := ⟨1, 0⟩, enableSpring := true,
    hertz := 0, dampingRatio := 0, enableLimit := false,
    lowerTranslation := 0, upperTranslation := 0, enableMotor := false,
    maxMotorTorque := 0, motorSpeed := 0, collideConnected := false,
    userData := 0 }

/-- Embedding of the Car sample's state (car.h fields used by car.cpp). -/
structure Car where
  m_chassisId : Nat
  m_rearWheelId : Nat
  m_frontWheelId : Nat
  m_rearAxleId : Nat
  m_frontAxleId : Nat
  m_isSpawned : Bool
deriving DecidableEq

/-- Embedding of the constructor `Car::Car` (car.cpp lines 12-20): every id
is zero-initialized (null) and `m_isSpawned` is false. -/
def Car.init : Car :=
  { m_chassisId := 0, m_rearWheelId := 0, m_frontWheelId := 0,
    m_rearAxleId := 0, m_frontAxleId := 0, m_isSpawned := false }

/-- The assertions at the start of `Car::Spawn` (car.cpp lines 25-29):
`m_isSpawned == false` and the chassis and wheel ids are null. -/
def spawnPre (c : Car) : Prop :=
  c.m_isSpawned = false ∧ c.m_chassisId = 0 ∧ c.m_frontWheelId = 0
    ∧ c.m_rearWheelId = 0

instance (c : Car) : Decidable (spawnPre c) := by
  unfold spawnPre; infer_instance

/-- The assertion at the start of `Car::Despawn` (car.cpp line 112):
`m_isSpawned == true`. -/
def despawnPre (c : Car) : Prop :=
  c.m_isSpawned = true

instance (c : Car) : Decidable (despawnPre c) := by
  unfold despawnPre; infer_instance

/-- Embedding of `Car::Spawn` (car.cpp lines 22-108), statement by
statement.  The chassis hull/polygon and the wheel circle shapes are pure
geometry attached to the bodies and are outside the modelled scope; the
body positions, the joint definitions and the stored ids follow the source.
The source reads but never writes `m_isSpawned`, and the `userData`
parameter is never used in the body. -/
def Car.Spawn (c : Car) (w : World) (position : b2Vec2)
    (scale hertz dampingRatio torque : ℚ) (userData : Nat) : Car × World :=
  let r1 := b2CreateBody w (b2Add ⟨0, 1 * scale⟩ position)
  let chassisId := r1.1
  let w1 := r1.2
  let r2 := b2CreateBody w1 (b2Add ⟨-1 * scale, (35/100) * scale⟩ position)
  let rearWheelId := r2.1
  let w2 := r2.2
  let r3 := b2CreateBody w2 (b2Add ⟨1 * scale, (4/10) * scale⟩ position)
  let frontWheelId := r3.1
  let w3 := r3.2
  let axis : b2Vec2 := ⟨0, 1⟩
  let pivot := b2Body_GetPosition w3 rearWheelId
  let jointDef :=
    { b2DefaultWheelJointDef with
      bodyIdA := chassisId, bodyIdB := rearWheelId,
      localAxisA := b2Body_GetLocalVector w3 chassisId axis,
      localAnchorA := b2Body_GetLocalPoint w3 chassisId pivot,
      localAnchorB := b2Body_GetLocalPoint w3 rearWheelId pivot,
      motorSpeed := 0, maxMotorTorque := torque, enableMotor := true,
      hertz := hertz, dampingRatio := dampingRatio,
      lowerTranslation := -(1/4) * scale,
      upperTranslation := (1/4) * scale, enableLimit := true }
  let r4 := b2CreateWheelJoint w3 jointDef
  let rearAxleId := r4.1
  let w4 := r4.2
  let pivot2 := b2Body_GetPosition w4 frontWheelId
  let jointDef2 :=
    { jointDef with
      bodyIdA := chassisId, bodyIdB := frontWheelId,
      localAxisA := b2Body_GetLocalVector w4 chassisId axis,
      localAnchorA := b2Body_GetLocalPoint w4 chassisId pivot2,
      localAnchorB := b2Body_GetLocalPoint w4 frontWheelId pivot2,
      motorSpeed := 0, maxMotorTorque := torque, enableMotor := true,
      hertz := hertz, dampingRatio := dampingRatio,
      lowerTranslation := -(1/4) * scale,
      upperTranslation := (1/4) * scale, enableLimit := true }
  let r5 := b2CreateWheelJoint w4 jointDef2
  let frontAxleId := r5.1
  let w5 := r5.2
  ({ c with
     m_chassisId := chassisId, m_rearWheelId := rearWheelId,
     m_frontWheelId := frontWheelId, m_rearAxleId := rearAxleId,
     m_frontAxleId := frontAxleId }, w5)

/-- Embedding of `Car::Despawn` (car.cpp lines 110-121) as far as the Car
state is concerned: the joints and bodies are destroyed in the world and
`m_isSpawned` is set to false; the stored ids are not reset. -/
def Car.Despawn (c : Car) : Car :=
  { c with m_isSpawned := false }

/-!
API-call traces of the Car setter operations (car.cpp lines 123-146).  The
wheel-joint setter and wake functions live outside src/, so the setters are
embedded as the sequence of joint-API calls they issue, in source order.
-/

/-- One call into the joint API, as issued by the Car setters. -/
inductive JointApiCall where
  | setMotorSpeed (jointId : Nat) (speed : ℚ)
  | setMaxMotorTorque (jointId : Nat) (torque : ℚ)
  | setSpringHertz (jointId : Nat) (hertz : ℚ)
  | setSpringDampingRatio (jointId : Nat) (ratio : ℚ)
  | wakeBodies (jointId : Nat)
deriving DecidableEq

/-- The joint whose motor parameters a call changes, if any. -/
def motorTarget : JointApiCall → Option Nat
  | .setMotorSpeed jointId _ => some jointId
  | .setMaxMotorTorque jointId _ => some jointId
  | _ => none

/-- Whether a call is a `b2Joint_WakeBodies` call. -/
def isWakeCall : JointApiCall → Bool
  | .wakeBodies _ => true
  | _ => false

/-- Embedding of `Car::SetSpeed` (car.cpp lines 123-128): set the motor
speed of both axle joints, then wake the bodies of the rear axle joint. -/
def Car.SetSpeed (c : Car) (speed : ℚ) : List JointApiCall :=
  [.setMotorSpeed c.m_rearAxleId speed,
   .setMotorSpeed c.m_frontAxleId speed,
   .wakeBodies c.m_rearAxleId]

/-- Embedding of `Car::SetTorque` (car.cpp lines 130-134): set the max
motor torque of both axle joints; no wake call is issued. -/
def Car.SetTorque (c : Car) (torque : ℚ) : List JointApiCall :=
  [.setMaxMotorTorque c.m_rearAxleId torque,
   .setMaxMotorTorque c.m_frontAxleId torque]

/-- Embedding of `Car::SetHertz` (car.cpp lines 136-140). -/
def Car.SetHertz (c : Car) (hertz : ℚ) : List JointApiCall :=
  [.setSpringHertz c.m_rearAxleId hertz,
   .setSpringHertz c.m_frontAxleId hertz]

/-- Embedding of `Car::SetDampingRadio` (car.cpp lines 142-146). -/
def Car.SetDampingRadio (c : Car) (dampingRatio : ℚ) : List JointApiCall :=
  [.setSpringDampingRatio c.m_rearAxleId dampingRatio,
   .setSpringDampingRatio c.m_frontAxleId dampingRatio]

/-!
Spec-modelled parts of the joint subsystem.  The per-joint solvers, the
registry and the setter implementations of this repository are not under
src/ (only joint_types.h declares them), so they are modelled from the
spec, faithful to its words, and checked against the claims.
-/

/-- Modelled from the spec: rigidity of the distance joint's axial
constraint (the distance-joint solver is not under src/).  Per the
`enableSpring` doc comment in joint_types.h the joint is rigid whenever
`enableSpring` is false (overriding the limit and motor); per spec section
4.1 a zero spring `hertz` yields a rigid/hard constraint even when the
spring is enabled.  Damping ratio and the remaining fields play no role. -/
def distanceJointRigid (d : b2DistanceJointDef) : Bool :=
  (!d.enableSpring) || decide (d.hertz = 0)

/-- The linear slop: the stable strictly positive minimum that length and
limit bounds are clamped to (spec section 3; the doc comments of `length`
and `minLength` in joint_types.h say they are clamped to a stable minimum
value). -/
def b2_linearSlop : ℚ := 5 / 1000

/-- Stored distance joint instance: the definition-level tunables plus the
accumulated warm-start impulses (spec section 3: linear, limit and motor
impulse components). -/
structure b2DistanceJoint where
  bodyIdA : Nat
  bodyIdB : Nat
  localAnchorA : b2Vec2
  localAnchorB : b2Vec2
  length : ℚ
  enableSpring : Bool
  hertz : ℚ
  dampingRatio : ℚ
  enableLimit : Bool
  minLength : ℚ
  maxLength : ℚ
  enableMotor : Bool
  maxMotorForce : ℚ
  motorSpeed : ℚ
  impulse : ℚ
  lowerImpulse : ℚ
  upperImpulse : ℚ
  motorImpulse : ℚ
deriving DecidableEq

/-- Modelled from the spec: distance joint creation (the registry source is
not under src/).  Per spec sections 4.2-4.3: inverted bounds are swapped at
creation rather than rejected, length and the limit bounds are clamped to a
strictly positive minimum, and accumulated impulses are zeroed on a fresh
joint. -/
def b2CreateDistanceJointInstance (d : b2DistanceJointDef) : b2DistanceJoint :=
  let lo := min d.minLength d.maxLength
  let hi := max d.minLength d.maxLength
  { bodyIdA := d.bodyIdA, bodyIdB := d.bodyIdB,
    localAnchorA := d.localAnchorA, localAnchorB := d.localAnchorB,
    length := max d.length b2_linearSlop,
    enableSpring := d.enableSpring, hertz := d.hertz,
    dampingRatio := d.dampingRatio, enableLimit := d.enableLimit,
    minLength := max lo b2_linearSlop, maxLength := max hi b2_linearSlop,
    enableMotor := d.enableMotor, maxMotorForce := d.maxMotorForce,
    motorSpeed := d.motorSpeed,
    impulse := 0, lowerImpulse := 0, upperImpulse := 0, motorImpulse := 0 }

/-- Stored wheel joint instance: the definition-level tunables plus the
accumulated warm-start impulses (spec section 3: spring, limit and motor
impulse components). -/
structure b2WheelJoint where
  bodyIdA : Nat
  bodyIdB : Nat
  localAnchorA : b2Vec2
  localAnchorB : b2Vec2
  localAxisA : b2Vec2
  enableSpring : Bool
  hertz : ℚ
  dampingRatio : ℚ
  enableLimit : Bool
  lowerTranslation : ℚ
  upperTranslation : ℚ
  enableMotor : Bool
  maxMotorTorque : ℚ
  motorSpeed : ℚ
  springImpulse : ℚ
  lowerImpulse : ℚ
  upperImpulse : ℚ
  motorImpulse : ℚ
deriving DecidableEq

/-- Modelled from the spec: wheel joint creation (the registry source is
not under src/).  Per spec sections 4.2-4.3: inverted translation bounds
are swapped at creation rather than rejected, and accumulated impulses are
zeroed on a fresh joint. -/
def b2CreateWheelJointInstance (d : b2WheelJointDef) : b2WheelJoint :=
  { bodyIdA := d.bodyIdA, bodyIdB := d.bodyIdB,
    localAnchorA := d.localAnchorA, localAnchorB := d.localAnchorB,
    localAxisA := d.localAxisA, enableSpring := d.enableSpring,
    hertz := d.hertz, dampingRatio := d.dampingRatio,
    enableLimit := d.enableLimit,
    lowerTranslation := min d.lowerTranslation d.upperTranslation,
    upperTranslation := max d.lowerTranslation d.upperTranslation,
    enableMotor := d.enableMotor, maxMotorTorque := d.maxMotorTorque,
    motorSpeed := d.motorSpeed,
    springImpulse := 0, lowerImpulse := 0, upperImpulse := 0,
    motorImpulse := 0 }

/-- Modelled from the spec: `b2WheelJoint_SetMotorSpeed` (setter source not
under src/).  Spec section 4.3: setters mutate the targeted
definition-level tunable without resetting accumulated impulses. -/
def b2WheelJoint_SetMotorSpeed (j : b2WheelJoint) (speed : ℚ) : b2WheelJoint :=
  { j with motorSpeed := speed }

/-- Modelled from the spec: `b2WheelJoint_SetMaxMotorTorque` (setter source
not under src/), mutating only the max motor torque. -/
def b2WheelJoint_SetMaxMotorTorque (j : b2WheelJoint) (torque : ℚ) :
    b2WheelJoint :=
  { j with maxMotorTorque := torque }

/-- Modelled from the spec: `b2WheelJoint_SetSpringHertz` (setter source
not under src/), mutating only the spring hertz. -/
def b2WheelJoint_SetSpringHertz (j : b2WheelJoint) (hertz : ℚ) :
    b2WheelJoint :=
  { j with hertz := hertz }

/-- Modelled from the spec: `b2WheelJoint_SetSpringDampingRatio` (setter
source not under src/), mutating only the spring damping ratio. -/
def b2WheelJoint_SetSpringDampingRatio (j : b2WheelJoint) (ratio : ℚ) :
    b2WheelJoint :=
  { j with dampingRatio := ratio }

/-- Constraint-space state threaded through the motor velocity iterations:
the relative velocity along the motor's degree of freedom and the motor
impulse accumulated in the current step. -/
structure MotorState where
  v : ℚ
  motorImpulse : ℚ
deriving DecidableEq

/-- Modelled from the spec: one velocity-iteration motor pass (the solver
source is not under src/).  Spec section 4.2: compute the constraint-space
relative velocity, solve for the incremental impulse toward `motorSpeed`
via the effective mass, clamp the accumulated motor impulse to
plus/minus `maxForce * h`, and apply the clamped increment to the velocity
through the inverse effective mass. -/
def motorSolveIteration (mass invMass motorSpeed maxForce h : ℚ)
    (s : MotorState) : MotorState :=
  let Cdot := s.v - motorSpeed
  let impulse := -(mass * Cdot)
  let oldImpulse := s.motorImpulse
  let maxImpulse := maxForce * h
  let newImpulse := min (max (oldImpulse + impulse) (-maxImpulse)) maxImpulse
  { v := s.v + invMass * (newImpulse - oldImpulse),
    motorImpulse := newImpulse }

/-- Stored prismatic joint instance: the definition-level tunables plus the
accumulated warm-start impulses (spec section 3: linear, spring, limit and
motor impulse components). -/
structure b2PrismaticJoint where
  bodyIdA : Nat
  bodyIdB : Nat
  localAnchorA : b2Vec2
  localAnchorB : b2Vec2
  localAxisA : b2Vec2
  referenceAngle : ℚ
  enableSpring : Bool
  hertz : ℚ
  dampingRatio : ℚ
  enableLimit : Bool
  lowerTranslation : ℚ
  upperTranslation : ℚ
  enableMotor : Bool
  maxMotorForce : ℚ
  motorSpeed : ℚ
  impulse : b2Vec2
  springImpulse : ℚ
  lowerImpulse : ℚ
  upperImpulse : ℚ
  motorImpulse : ℚ
deriving DecidableEq

/-- Modelled from the spec: prismatic joint creation (the registry source
is not under src/).  Per spec sections 4.2-4.3: inverted translation bounds
are swapped at creation rather than rejected, and accumulated impulses are
zeroed on a fresh joint. -/
def b2CreatePrismaticJointInstance (d : b2PrismaticJointDef) :
    b2PrismaticJoint :=
  { bodyIdA := d.bodyIdA, bodyIdB := d.bodyIdB,
    localAnchorA := d.localAnchorA, localAnchorB := d.localAnchorB,
    localAxisA := d.localAxisA, referenceAngle := d.referenceAngle,
    enableSpring := d.enableSpring, hertz := d.hertz,
    dampingRatio := d.dampingRatio, enableLimit := d.enableLimit,
    lowerTranslation := min d.lowerTranslation d.upperTranslation,
    upperTranslation := max d.lowerTranslation d.upperTranslation,
    enableMotor := d.enableMotor, maxMotorForce := d.maxMotorForce,
    motorSpeed := d.motorSpeed,
    impulse := ⟨0, 0⟩, springImpulse := 0, lowerImpulse := 0,
    upperImpulse := 0, motorImpulse := 0 }

/-- Stored revolute joint instance: the definition-level tunables plus the
accumulated warm-start impulses (spec section 3: linear, spring, limit and
motor impulse components). -/
structure b2RevoluteJoint where
  bodyIdA : Nat
  bodyIdB : Nat
  localAnchorA : b2Vec2
  localAnchorB : b2Vec2
  referenceAngle : ℚ
  enableSpring : Bool
  hertz : ℚ
  dampingRatio : ℚ
  enableLimit : Bool
  lowerAngle : ℚ
  upperAngle : ℚ
  enableMotor : Bool
  maxMotorTorque : ℚ
  motorSpeed : ℚ
  linearImpulse : b2Vec2
  springImpulse : ℚ
  lowerImpulse : ℚ
  upperImpulse : ℚ
  motorImpulse : ℚ
deriving DecidableEq

/-- Modelled from the spec: revolute joint creation (the registry source is
not under src/).  Per spec sections 4.2-4.3: inverted angle bounds are
swapped at creation rather than rejected, and accumulated impulses are
zeroed on a fresh joint. -/
def b2CreateRevoluteJointInstance (d : b2RevoluteJointDef) :
    b2RevoluteJoint :=
  { bodyIdA := d.bodyIdA, bodyIdB := d.bodyIdB,
    localAnchorA := d.localAnchorA, localAnchorB := d.localAnchorB,
    referenceAngle := d.referenceAngle, enableSpring := d.enableSpring,
    hertz := d.hertz, dampingRatio := d.dampingRatio,
    enableLimit := d.enableLimit,
    lowerAngle := min d.lowerAngle d.upperAngle,
    upperAngle := max d.lowerAngle d.upperAngle,
    enableMotor := d.enableMotor, maxMotorTorque := d.maxMotorTorque,
    motorSpeed := d.motorSpeed,
    linearImpulse := ⟨0, 0⟩, springImpulse := 0, lowerImpulse := 0,
    upperImpulse := 0, motorImpulse := 0 }

/-- The accumulated warm-start impulses of a stored wheel joint are
unchanged between two states. -/
def impulsesUnchanged (j j' : b2WheelJoint) : Prop :=
  j'.springImpulse = j.springImpulse ∧ j'.lowerImpulse = j.lowerImpulse
    ∧ j'.upperImpulse = j.upperImpulse ∧ j'.motorImpulse = j.motorImpulse

/-- The body references, geometry, flags and limit bounds of a stored wheel
joint are unchanged between two states. -/
def sameGeometryAndFlags (j j' : b2WheelJoint) : Prop :=
  j'.bodyIdA = j.bodyIdA ∧ j'.bodyIdB = j.bodyIdB
    ∧ j'.localAnchorA = j.localAnchorA ∧ j'.localAnchorB = j.localAnchorB
    ∧ j'.localAxisA = j.localAxisA ∧ j'.enableSpring = j.enableSpring
    ∧ j'.enableLimit = j.enableLimit
    ∧ j'.lowerTranslation = j.lowerTranslation
    ∧ j'.upperTranslation = j.upperTranslation
    ∧ j'.enableMotor = j.enableMotor

/-!
Concrete values used by counterexamples and witnesses.
-/

instance : Inhabited b2WheelJointDef := ⟨b2DefaultWheelJointDef⟩

/-- A spawned car with five distinct live ids, as produced by a completed
spawn sequence. -/
def carExample : Car :=
  { m_chassisId := 1, m_rearWheelId := 2, m_frontWheelId := 3,
    m_rearAxleId := 4, m_frontAxleId := 5, m_isSpawned := true }

/-- A fresh world with no bodies and no joints. -/
def worldExample : World := { nextId := 1, bodies := [], wheelJoints := [] }

/-- The first wheel-joint definition registered by a concrete Spawn run
(the rear axle definition). -/
def spawnRearDefExample : b2WheelJointDef :=
  ((Car.Spawn Car.init worldExample ⟨0, 0⟩ 1 5 (7/10) (5/2)
      0).2.wheelJoints.drop worldExample.wheelJoints.length).headI

/-- A distance joint definition with the spring enabled and nonzero
hertz. -/
def distanceDefSpringOn : b2DistanceJointDef :=
  { bodyIdA := 1, bodyIdB := 2, localAnchorA := ⟨0, 0⟩,
    localAnchorB := ⟨0, 0⟩, length := 1, enableSpring := true, hertz := 5,
    dampingRatio := 7/10, enableLimit := false, minLength := 0,
    maxLength := 2, enableMotor := false, maxMotorForce := 0,
    motorSpeed := 0, collideConnected := false, userData := 0 }

/-- The same definition with the spring disabled. -/
def distanceDefSpringOff : b2DistanceJointDef :=
  { distanceDefSpringOn with enableSpring := false }

/-- The same definition with zero spring hertz. -/
def distanceDefZeroHertz : b2DistanceJointDef :=
  { distanceDefSpringOn with hertz := 0 }

/-- The same definition with a different damping ratio. -/
def distanceDefOtherDamping : b2DistanceJointDef :=
  { distanceDefSpringOn with dampingRatio := 1/2 }

/-- A wheel joint definition with inverted translation limits. -/
def wheelDefInverted : b2WheelJointDef :=
  { b2DefaultWheelJointDef with
    lowerTranslation := 1/4, upperTranslation := -(1/4),
    enableLimit := true }

/-- A distance joint definition with inverted length limits. -/
def distanceDefInverted : b2DistanceJointDef :=
  { distanceDefSpringOn with
    minLength := 2, maxLength := 1, enableLimit := true }

/-- A prismatic joint definition with inverted translation limits. -/
def prismaticDefInverted : b2PrismaticJointDef :=
  { bodyIdA := 1, bodyIdB := 2, localAnchorA := ⟨0, 0⟩,
    localAnchorB := ⟨0, 0⟩, localAxisA := ⟨1, 0⟩, referenceAngle := 0,
    enableSpring := false, hertz := 0, dampingRatio := 0,
    enableLimit := true, lowerTranslation := 1/2,
    upperTranslation := -(1/2), enableMotor := false, maxMotorForce := 0,
    motorSpeed := 0, collideConnected := false, userData := 0 }

/-- A revolute joint definition with inverted angle limits. -/
def revoluteDefInverted : b2RevoluteJointDef :=
  { bodyIdA := 1, bodyIdB := 2, localAnchorA := ⟨0, 0⟩,
    localAnchorB := ⟨0, 0⟩, referenceAngle := 0, enableSpring := false,
    hertz := 0, dampingRatio := 0, enableLimit := true, lowerAngle := 1,
    upperAngle := -1, enableMotor := false, maxMotorTorque := 0,
    motorSpeed := 0, drawSize := 1, collideConnected := false,
    userData := 0 }

/-!
Theorems settling the claims.
-/

/-- C1 counterexample: the Motor and Mouse joint definition variants carry
no local anchor point fields (the Motor variant carries a linear offset in
bodyA's frame, the Mouse variant a world-space target), so the claim that
every variant contains local anchor point(s) in each body's local frame
fails at the Motor variant (and at the Mouse variant). -/
theorem c1_counterexample :
    hasLocalAnchorFields (jointDefFields .b2_motorJoint) = false
    ∧ hasLocalAnchorFields (jointDefFields .b2_mouseJoint) = false
    ∧ hasCommonRefFields (jointDefFields .b2_motorJoint) = true := by
  decide

/-- C1 (amended): every joint definition variant contains the two body
references, the collideConnected flag and the user-data reference; the
Distance, Prismatic, Revolute, Weld and Wheel variants additionally contain
the local anchor points in each body's local frame, while the Motor variant
carries a linear offset in bodyA's frame and the Mouse variant a
world-space target instead. -/
theorem c1_joint_def_fields_amended :
    (∀ t : b2JointType,
      hasCommonRefFields (jointDefFields t) = true
      ∧ hasLocalAnchorFields (jointDefFields t) = anchorFieldsExpected t)
    ∧ "linearOffset" ∈ jointDefFields .b2_motorJoint
    ∧ "target" ∈ jointDefFields .b2_mouseJoint := by
  refine ⟨fun t => ?_, by decide, by decide⟩
  cases t <;> exact ⟨rfl, rfl⟩

/-- C2 counterexample: two distance joint definitions with the same hertz
value (5) but opposite enableSpring flags differ in rigidity, so rigidity
is not determined by the hertz value alone. -/
theorem c2_counterexample :
    distanceDefSpringOn.hertz = distanceDefSpringOff.hertz
    ∧ distanceJointRigid distanceDefSpringOn = false
    ∧ distanceJointRigid distanceDefSpringOff = true := by decide

/-- C2 (amended): in the distance joint definition, setting hertz = 0
yields a rigid constraint, and so does disabling the spring
(enableSpring = false, which per its doc comment makes the joint rigid)
for any hertz; the distance joint's rigidity is determined by hertz
together with its enableSpring flag and by no other spring setting (in
particular it is independent of the damping ratio). -/
theorem c2_rigid_constraint_amended (d d' : b2DistanceJointDef) :
    (d.hertz = 0 → distanceJointRigid d = true)
    ∧ (d.enableSpring = false → distanceJointRigid d = true)
    ∧ (d.hertz = d'.hertz → d.enableSpring = d'.enableSpring →
        distanceJointRigid d = distanceJointRigid d') := by
  unfold distanceJointRigid
  refine ⟨fun h => ?_, fun h => ?_, fun h1 h2 => ?_⟩
  · simp [h]
  · simp [h]
  · rw [h1, h2]

/-- C2 witness: the amended theorem applied at concrete definitions — a
zero-hertz definition is rigid, a spring-disabled definition is rigid, and
two definitions differing only in damping ratio have equal rigidity. -/
theorem c2_rigid_constraint_witness :
    distanceJointRigid distanceDefZeroHertz = true
    ∧ distanceJointRigid distanceDefSpringOff = true
    ∧ distanceJointRigid distanceDefSpringOn
        = distanceJointRigid distanceDefOtherDamping :=
  ⟨(c2_rigid_constraint_amended distanceDefZeroHertz distanceDefZeroHertz).1
      rfl,
   (c2_rigid_constraint_amended distanceDefSpringOff
      distanceDefSpringOff).2.1 rfl,
   (c2_rigid_constraint_amended distanceDefSpringOn
      distanceDefOtherDamping).2.2 rfl rfl⟩

/-- C3: a joint definition whose limit bounds are inverted (maxLength less
than minLength, or upper translation/angle below the lower bound) has its
bounds swapped at creation, so the stored joint satisfies lower bound at
most upper bound; creation is a total function, so the definition is never
rejected. -/
theorem c3_inverted_bounds_swapped (wd : b2WheelJointDef)
    (dd : b2DistanceJointDef) (pd : b2PrismaticJointDef)
    (rd : b2RevoluteJointDef) :
    (wd.upperTranslation < wd.lowerTranslation →
      (b2CreateWheelJointInstance wd).lowerTranslation = wd.upperTranslation
      ∧ (b2CreateWheelJointInstance wd).upperTranslation
          = wd.lowerTranslation
      ∧ (b2CreateWheelJointInstance wd).lowerTranslation
          ≤ (b2CreateWheelJointInstance wd).upperTranslation)
    ∧ (dd.maxLength < dd.minLength →
      (b2CreateDistanceJointInstance dd).minLength
          = max dd.maxLength b2_linearSlop
      ∧ (b2CreateDistanceJointInstance dd).maxLength
          = max dd.minLength b2_linearSlop
      ∧ (b2CreateDistanceJointInstance dd).minLength
          ≤ (b2CreateDistanceJointInstance dd).maxLength)
    ∧ (pd.upperTranslation < pd.lowerTranslation →
      (b2CreatePrismaticJointInstance pd).lowerTranslation
          = pd.upperTranslation
      ∧ (b2CreatePrismaticJointInstance pd).upperTranslation
          = pd.lowerTranslation
      ∧ (b2CreatePrismaticJointInstance pd).lowerTranslation
          ≤ (b2CreatePrismaticJointInstance pd).upperTranslation)
    ∧ (rd.upperAngle < rd.lowerAngle →
      (b2CreateRevoluteJointInstance rd).lowerAngle = rd.upperAngle
      ∧ (b2CreateRevoluteJointInstance rd).upperAngle = rd.lowerAngle
      ∧ (b2CreateRevoluteJointInstance rd).lowerAngle
          ≤ (b2CreateRevoluteJointInstance rd).upperAngle) := by
  refine ⟨fun h => ?_, fun h => ?_, fun h => ?_, fun h => ?_⟩
  · refine ⟨min_eq_right h.le, max_eq_left h.le, ?_⟩
    show min wd.lowerTranslation wd.upperTranslation
        ≤ max wd.lowerTranslation wd.upperTranslation
    exact min_le_max
  · refine ⟨?_, ?_, ?_⟩
    · show max (min dd.minLength dd.maxLength) b2_linearSlop
          = max dd.maxLength b2_linearSlop
      rw [min_eq_right h.le]
    · show max (max dd.minLength dd.maxLength) b2_linearSlop
          = max dd.minLength b2_linearSlop
      rw [max_eq_left h.le]
    · show max (min dd.minLength dd.maxLength) b2_linearSlop
          ≤ max (max dd.minLength dd.maxLength) b2_linearSlop
      exact max_le_max min_le_max le_rfl
  · refine ⟨min_eq_right h.le, max_eq_left h.le, ?_⟩
    show min pd.lowerTranslation pd.upperTranslation
        ≤ max pd.lowerTranslation pd.upperTranslation
    exact min_le_max
  · refine ⟨min_eq_right h.le, max_eq_left h.le, ?_⟩
    show min rd.lowerAngle rd.upperAngle ≤ max rd.lowerAngle rd.upperAngle
    exact min_le_max

/-- C3 witness: the theorem applied to concrete inverted wheel, distance,
prismatic and revolute definitions. -/
theorem c3_inverted_bounds_witness :
    ((b2CreateWheelJointInstance wheelDefInverted).lowerTranslation
        = wheelDefInverted.upperTranslation
      ∧ (b2CreateWheelJointInstance wheelDefInverted).upperTranslation
        = wheelDefInverted.lowerTranslation
      ∧ (b2CreateWheelJointInstance wheelDefInverted).lowerTranslation
        ≤ (b2CreateWheelJointInstance wheelDefInverted).upperTranslation)
    ∧ ((b2CreateDistanceJointInstance distanceDefInverted).minLength
        = max distanceDefInverted.maxLength b2_linearSlop
      ∧ (b2CreateDistanceJointInstance distanceDefInverted).maxLength
        = max distanceDefInverted.minLength b2_linearSlop
      ∧ (b2CreateDistanceJointInstance distanceDefInverted).minLength
        ≤ (b2CreateDistanceJointInstance distanceDefInverted).maxLength)
    ∧ ((b2CreatePrismaticJointInstance prismaticDefInverted).lowerTranslation
        = prismaticDefInverted.upperTranslation
      ∧ (b2CreatePrismaticJointInstance prismaticDefInverted).upperTranslation
        = prismaticDefInverted.lowerTranslation
      ∧ (b2CreatePrismaticJointInstance prismaticDefInverted).lowerTranslation
        ≤ (b2CreatePrismaticJointInstance prismaticDefInverted).upperTranslation)
    ∧ ((b2CreateRevoluteJointInstance revoluteDefInverted).lowerAngle
        = revoluteDefInverted.upperAngle
      ∧ (b2CreateRevoluteJointInstance revoluteDefInverted).upperAngle
        = revoluteDefInverted.lowerAngle
      ∧ (b2CreateRevoluteJointInstance revoluteDefInverted).lowerAngle
        ≤ (b2CreateRevoluteJointInstance revoluteDefInverted).upperAngle) :=
  ⟨(c3_inverted_bounds_swapped wheelDefInverted distanceDefInverted
      prismaticDefInverted revoluteDefInverted).1
      (by norm_num [wheelDefInverted, b2DefaultWheelJointDef]),
   (c3_inverted_bounds_swapped wheelDefInverted distanceDefInverted
      prismaticDefInverted revoluteDefInverted).2.1
      (by norm_num [distanceDefInverted, distanceDefSpringOn]),
   (c3_inverted_bounds_swapped wheelDefInverted distanceDefInverted
      prismaticDefInverted revoluteDefInverted).2.2.1
      (by norm_num [prismaticDefInverted]),
   (c3_inverted_bounds_swapped wheelDefInverted distanceDefInverted
      prismaticDefInverted revoluteDefInverted).2.2.2
      (by norm_num [revoluteDefInverted])⟩

/-- C4: `Car::Spawn` never writes `m_isSpawned`, so after a Spawn run the
flag equals its value before the call — still false under Spawn's own
precondition — and consequently a `Car::Despawn` immediately following a
completed Spawn fails its assertion `m_isSpawned == true`. -/
theorem c4_spawn_never_sets_isSpawned (c : Car) (w : World)
    (position : b2Vec2) (scale hertz dampingRatio torque : ℚ)
    (userData : Nat) :
    (Car.Spawn c w position scale hertz dampingRatio torque
        userData).1.m_isSpawned = c.m_isSpawned
    ∧ (spawnPre c →
        ¬ despawnPre (Car.Spawn c w position scale hertz dampingRatio
          torque userData).1) := by
  refine ⟨rfl, fun h => ?_⟩
  unfold despawnPre
  have h2 : (Car.Spawn c w position scale hertz dampingRatio torque
      userData).1.m_isSpawned = c.m_isSpawned := rfl
  rw [h2, h.1]
  simp

/-- C4 witness: spawning a freshly constructed car in a fresh world leaves
the Despawn assertion unsatisfied. -/
theorem c4_spawn_despawn_witness :
    ¬ despawnPre (Car.Spawn Car.init worldExample ⟨0, 0⟩ 1 5 (7/10) (5/2)
        0).1 :=
  (c4_spawn_never_sets_isSpawned Car.init worldExample ⟨0, 0⟩ 1 5 (7/10)
      (5/2) 0).2 (by decide)

/-- C5: every Spawn run registers exactly two wheel-joint definitions (the
rear and front axles), and each is created with enableLimit true,
lowerTranslation equal to -0.25 times the scale, upperTranslation equal to
0.25 times the scale, enableMotor true, motorSpeed 0 and maxMotorTorque
equal to the torque argument; for a nonnegative scale the created limits
satisfy lowerTranslation at most upperTranslation. -/
theorem c5_spawn_axle_joint_params (c : Car) (w : World) (position : b2Vec2)
    (scale hertz dampingRatio torque : ℚ) (userData : Nat) :
    ((Car.Spawn c w position scale hertz dampingRatio torque
        userData).2.wheelJoints.length = w.wheelJoints.length + 2)
    ∧ (∀ jd ∈ (Car.Spawn c w position scale hertz dampingRatio torque
          userData).2.wheelJoints.drop w.wheelJoints.length,
        jd.enableLimit = true ∧ jd.lowerTranslation = -(1/4) * scale
        ∧ jd.upperTranslation = (1/4) * scale ∧ jd.enableMotor = true
        ∧ jd.motorSpeed = 0 ∧ jd.maxMotorTorque = torque
        ∧ (0 ≤ scale → jd.lowerTranslation ≤ jd.upperTranslation)) := by
  constructor
  · simp [Car.Spawn, b2CreateBody, b2CreateWheelJoint]
  · intro jd hmem
    simp only [Car.Spawn, b2CreateBody, b2CreateWheelJoint,
      List.append_assoc] at hmem
    rw [List.drop_left] at hmem
    simp only [List.singleton_append, List.mem_cons, List.not_mem_nil,
      or_false] at hmem
    rcases hmem with rfl | rfl <;>
      exact ⟨rfl, rfl, rfl, rfl, rfl, rfl, fun hs => by
        show -(1/4) * scale ≤ (1/4) * scale
        nlinarith⟩

/-- C5 witness: a concrete Spawn run registers two wheel-joint definitions
and its rear axle definition carries the claimed limit and motor values. -/
theorem c5_spawn_axle_joint_witness :
    ((Car.Spawn Car.init worldExample ⟨0, 0⟩ 1 5 (7/10) (5/2)
        0).2.wheelJoints.length = worldExample.wheelJoints.length + 2)
    ∧ (spawnRearDefExample.enableLimit = true
      ∧ spawnRearDefExample.lowerTranslation = -(1/4) * 1
      ∧ spawnRearDefExample.upperTranslation = (1/4) * 1
      ∧ spawnRearDefExample.enableMotor = true
      ∧ spawnRearDefExample.motorSpeed = 0
      ∧ spawnRearDefExample.maxMotorTorque = 5/2
      ∧ spawnRearDefExample.lowerTranslation
          ≤ spawnRearDefExample.upperTranslation) := by
  refine ⟨(c5_spawn_axle_joint_params Car.init worldExample ⟨0, 0⟩ 1 5
      (7/10) (5/2) 0).1, ?_⟩
  have h := (c5_spawn_axle_joint_params Car.init worldExample ⟨0, 0⟩ 1 5
      (7/10) (5/2) 0).2 spawnRearDefExample (List.mem_cons_self _ _)
  exact ⟨h.1, h.2.1, h.2.2.1, h.2.2.2.1, h.2.2.2.2.1, h.2.2.2.2.2.1,
    h.2.2.2.2.2.2 (by norm_num)⟩

/-- C6 counterexample: on a spawned car with distinct joint ids,
`Car::SetTorque` changes the motor parameter of the rear axle joint (id 4)
yet issues no WakeBodies call at all, and `Car::SetSpeed` changes the motor
parameter of the front axle joint (id 5) yet wakes only the rear axle
joint (id 4); so not every motor-changing Car operation wakes each joint
whose motor parameters it changed. -/
theorem c6_counterexample :
    motorTarget (JointApiCall.setMaxMotorTorque 4 3) = some 4
    ∧ JointApiCall.setMaxMotorTorque 4 3 ∈ Car.SetTorque carExample 3
    ∧ (Car.SetTorque carExample 3).filter isWakeCall = []
    ∧ motorTarget (JointApiCall.setMotorSpeed 5 2) = some 5
    ∧ JointApiCall.setMotorSpeed 5 2 ∈ Car.SetSpeed carExample 2
    ∧ (Car.SetSpeed carExample 2).filter isWakeCall
        = [JointApiCall.wakeBodies 4] := by
  decide

/-- C6 (amended): `Car::SetSpeed` changes the motor speed of both axle
joints and invokes WakeBodies, before returning, on the rear axle joint
only; `Car::SetTorque` changes both joints' max motor torque and invokes
no WakeBodies call at all. -/
theorem c6_wake_calls_amended (c : Car) (speed torque : ℚ) :
    JointApiCall.wakeBodies c.m_rearAxleId ∈ Car.SetSpeed c speed
    ∧ (Car.SetSpeed c speed).filter isWakeCall
        = [JointApiCall.wakeBodies c.m_rearAxleId]
    ∧ (Car.SetTorque c torque).filter isWakeCall = [] := by
  refine ⟨?_, rfl, rfl⟩
  simp [Car.SetSpeed]

/-- C7: the prismatic joint definition's motor is linear — it has a
maxMotorForce field documented in newtons and a motorSpeed field in meters
per second, and no maxMotorTorque field — whereas the wheel joint
definition's motor is rotational — it has a maxMotorTorque field in
newton-meters and a motorSpeed field in radians per second, and no
maxMotorForce field. -/
theorem c7_prismatic_linear_wheel_rotational :
    ("maxMotorForce" ∈ jointDefFields .b2_prismaticJoint)
    ∧ ((jointDefFields .b2_prismaticJoint).contains "maxMotorTorque" = false)
    ∧ (("maxMotorForce", "newtons") ∈ jointMotorFieldUnits .b2_prismaticJoint)
    ∧ (("motorSpeed", "meters per second")
        ∈ jointMotorFieldUnits .b2_prismaticJoint)
    ∧ ("maxMotorTorque" ∈ jointDefFields .b2_wheelJoint)
    ∧ ((jointDefFields .b2_wheelJoint).contains "maxMotorForce" = false)
    ∧ (("maxMotorTorque", "newton-meters")
        ∈ jointMotorFieldUnits .b2_wheelJoint)
    ∧ (("motorSpeed", "radians per second")
        ∈ jointMotorFieldUnits .b2_wheelJoint) := by
  decide

/-- One motor iteration leaves the accumulated motor impulse clamped to the
interval from minus maxForce times the step size to plus maxForce times the
step size. -/
lemma motorSolveIteration_clamped (mass invMass motorSpeed maxForce h : ℚ)
    (s : MotorState) (hB : 0 ≤ maxForce * h) :
    |(motorSolveIteration mass invMass motorSpeed maxForce h
        s).motorImpulse| ≤ maxForce * h := by
  show |min (max (s.motorImpulse + -(mass * (s.v - motorSpeed)))
      (-(maxForce * h))) (maxForce * h)| ≤ maxForce * h
  rw [abs_le]
  exact ⟨le_min (le_max_right _ _) ((neg_nonpos.mpr hB).trans hB),
    min_le_right _ _⟩

/-- C8: for nonnegative maxForce and step size, after any positive number
of motor velocity iterations from any starting state, the accumulated motor
impulse — the total motor impulse applied in the step — has magnitude at
most maxForce times the step size, because the accumulated impulse is
clamped on every iteration. -/
theorem c8_motor_impulse_bounded (mass invMass motorSpeed maxForce h : ℚ)
    (s : MotorState) (n : ℕ) (hf : 0 ≤ maxForce) (hh : 0 ≤ h)
    (hn : 0 < n) :
    |((motorSolveIteration mass invMass motorSpeed maxForce h)^[n]
        s).motorImpulse| ≤ maxForce * h := by
  cases n with
  | zero => exact absurd hn (lt_irrefl 0)
  | succ m =>
    rw [Function.iterate_succ_apply']
    exact motorSolveIteration_clamped mass invMass motorSpeed maxForce h _
      (mul_nonneg hf hh)

/-- C8 witness: four iterations of a concrete motor solve (effective mass
2, target speed 10, max force 3, step 1/60) keep the accumulated impulse
within 3 times 1/60. -/
theorem c8_motor_impulse_witness :
    |((motorSolveIteration 2 (1/2) 10 3 (1/60))^[4]
        ⟨0, 0⟩).motorImpulse| ≤ 3 * (1/60) :=
  c8_motor_impulse_bounded 2 (1/2) 10 3 (1/60) ⟨0, 0⟩ 4 (by norm_num)
    (by norm_num) (by norm_num)

/-- C9: each wheel-joint setter (motor speed, max motor torque, spring
hertz, spring damping ratio) sets its targeted definition-level field to
the given value and leaves every other field — in particular all four
accumulated warm-start impulses — unchanged. -/
theorem c9_setters_preserve_impulses (j : b2WheelJoint) (v : ℚ) :
    ((b2WheelJoint_SetMotorSpeed j v).motorSpeed = v
      ∧ impulsesUnchanged j (b2WheelJoint_SetMotorSpeed j v)
      ∧ sameGeometryAndFlags j (b2WheelJoint_SetMotorSpeed j v)
      ∧ (b2WheelJoint_SetMotorSpeed j v).maxMotorTorque = j.maxMotorTorque
      ∧ (b2WheelJoint_SetMotorSpeed j v).hertz = j.hertz
      ∧ (b2WheelJoint_SetMotorSpeed j v).dampingRatio = j.dampingRatio)
    ∧ ((b2WheelJoint_SetMaxMotorTorque j v).maxMotorTorque = v
      ∧ impulsesUnchanged j (b2WheelJoint_SetMaxMotorTorque j v)
      ∧ sameGeometryAndFlags j (b2WheelJoint_SetMaxMotorTorque j v)
      ∧ (b2WheelJoint_SetMaxMotorTorque j v).motorSpeed = j.motorSpeed
      ∧ (b2WheelJoint_SetMaxMotorTorque j v).hertz = j.hertz
      ∧ (b2WheelJoint_SetMaxMotorTorque j v).dampingRatio = j.dampingRatio)
    ∧ ((b2WheelJoint_SetSpringHertz j v).hertz = v
      ∧ impulsesUnchanged j (b2WheelJoint_SetSpringHertz j v)
      ∧ sameGeometryAndFlags j (b2WheelJoint_SetSpringHertz j v)
      ∧ (b2WheelJoint_SetSpringHertz j v).motorSpeed = j.motorSpeed
      ∧ (b2WheelJoint_SetSpringHertz j v).maxMotorTorque = j.maxMotorTorque
      ∧ (b2WheelJoint_SetSpringHertz j v).dampingRatio = j.dampingRatio)
    ∧ ((b2WheelJoint_SetSpringDampingRatio j v).dampingRatio = v
      ∧ impulsesUnchanged j (b2WheelJoint_SetSpringDampingRatio j v)
      ∧ sameGeometryAndFlags j (b2WheelJoint_SetSpringDampingRatio j v)
      ∧ (b2WheelJoint_SetSpringDampingRatio j v).motorSpeed = j.motorSpeed
      ∧ (b2WheelJoint_SetSpringDampingRatio j v).maxMotorTorque
          = j.maxMotorTorque
      ∧ (b2WheelJoint_SetSpringDampingRatio j v).hertz = j.hertz) := by
  exact ⟨⟨rfl, ⟨rfl, rfl, rfl, rfl⟩,
      ⟨rfl, rfl, rfl, rfl, rfl, rfl, rfl, rfl, rfl, rfl⟩, rfl, rfl, rfl⟩,
    ⟨rfl, ⟨rfl, rfl, rfl, rfl⟩,
      ⟨rfl, rfl, rfl, rfl, rfl, rfl, rfl, rfl, rfl, rfl⟩, rfl, rfl, rfl⟩,
    ⟨rfl, ⟨rfl, rfl, rfl, rfl⟩,
      ⟨rfl, rfl, rfl, rfl, rfl, rfl, rfl, rfl, rfl, rfl⟩, rfl, rfl, rfl⟩,
    ⟨rfl, ⟨rfl, rfl, rfl, rfl⟩,
      ⟨rfl, rfl, rfl, rfl, rfl, rfl, rfl, rfl, rfl, rfl⟩, rfl, rfl, rfl⟩⟩

/-- C10: a freshly constructed Car has all five ids null and m_isSpawned
false, so the assertions at the start of `Car::Spawn` hold on it. -/
theorem c10_fresh_car_satisfies_spawn_preconditions :
    Car.init.m_chassisId = 0 ∧ Car.init.m_rearWheelId = 0
    ∧ Car.init.m_frontWheelId = 0 ∧ Car.init.m_rearAxleId = 0
    ∧ Car.init.m_frontAxleId = 0 ∧ Car.init.m_isSpawned = false
    ∧ spawnPre Car.init := by decide
